import Mathlib

/-!
Shallow embedding of the ESI client caching-and-retry protocol
(class AppESI in src/app/esi.py) together with proofs of the
specified properties.

Modelling conventions:
* JSON payloads are abstracted to sequences of items (List Nat); the
  dictionary shape of some endpoints plays no role in the verified
  properties.  A response whose json() coroutine raises is modelled by
  jsonResult = none; a successful decode yielding the JSON null value is
  some none; a decoded sequence is some (some items).
* The Redis cache is modelled at the value level: a read either raises a
  redis.RedisError (CacheRead.err, which the source suppresses), misses
  (ok none) or yields the stored value (ok (some v)).  Stored JSON
  strings are represented by their decoded value, as every stored value
  was produced by json.dumps in this same module.
* Each transport attempt is an oracle value: a ClientConnectionError
  raised by http_session.get before the response variable is bound, some
  other exception raised there, or an HTTP response.
* The Expires header is carried as its parse outcome: parseFail when
  dateutil.parser.parse raises, or the signed whole number of seconds
  from now until the parsed timestamp, matching
  int((parse(h) - now).total_seconds()).
* Exceptions that escape a method are made explicit with Except: the
  embedding returns Except PyErr AppESIResult inside a trace record, so
  that raising and returning are distinguished.
* asyncio.gather returns results in task-submission order regardless of
  completion order; the embedding assembles the page fan-out in list
  order, which is exactly that guarantee.
-/

deriving instance DecidableEq for Except

namespace AppESI

/-- Keys of the module-level string constants of AppESI and literals used
in the source. -/
def IF_NON_MATCH : String := "If-None-Match"

def ETAG_PREF : String := "etag:"

def JSON_PREF : String := "json:"

def PAGES_PREF : String := "pages:"

def PAGE_PARAM : String := "page"

def AUTH_HEADER : String := "Authorization"

def BEARER : String := "Bearer "

/-- AppESI.KV_LIFETIME, the default cache lifetime in seconds. -/
def KV_LIFETIME : Int := 3600

/-- Modelled from the spec: the module app.constants (class AppConstants)
is not among the sources; the spec lists the retry budget, the backoff
base delay, the per-status backoff multiplier table and the per-host
connection limit as configuration inputs, so they are carried as a
record the definitions are parameterised over. -/
structure AppConstants where
  ESI_ERROR_RETRY_COUNT : Nat
  ESI_ERROR_SLEEP_TIME : Int
  ESI_ERROR_SLEEP_MODIFIERS : List (Nat × Int)
  ESI_LIMIT_PER_HOST : Nat
deriving Repr

/-- dict.get(status, 1) on the multiplier table. -/
def sleepModifier (c : AppConstants) (status : Nat) : Int :=
  (c.ESI_ERROR_SLEEP_MODIFIERS.lookup status).getD 1

/-- Python exceptions that can escape the embedded methods. -/
inductive PyErr where
  /-- UnboundLocalError: the final log statement of get reads
  response.url although no attempt ever bound the response variable. -/
  | unboundLocalResponse
  /-- TypeError: list.extend(None), or None | dict when merging the page
  number into an absent request_params. -/
  | typeError
deriving Repr, DecidableEq

/-- Observable events of one retry loop, in order: a transport attempt,
or an asyncio.sleep for the given duration. -/
inductive Event where
  | attempt
  | sleep (d : Int)
deriving Repr, DecidableEq

def Event.isAttempt : Event → Bool
  | .attempt => true
  | .sleep _ => false

/-- Number of transport attempts recorded in a trace. -/
def attemptsMade (es : List Event) : Nat :=
  (es.filter Event.isAttempt).length

/-- Number of backoff sleeps recorded in a trace. -/
def sleepCount (es : List Event) : Nat :=
  (es.filter (fun e => !e.isAttempt)).length

/-- Parse outcome of an Expires header value (dateutil.parser.parse
followed by subtraction of now and int truncation of total_seconds). -/
inductive ExpiresParse where
  | parseFail
  | seconds (s : Int)
deriving Repr, DecidableEq

/-- One upstream HTTP response, at the granularity the source reads it:
status, json() outcome, ETag header, Expires header parse outcome and
X-Pages header. -/
structure HttpResponse where
  status : Nat
  jsonResult : Option (Option (List Nat))
  etag : Option String
  expires : Option ExpiresParse
  xPages : Option Nat
deriving Repr, DecidableEq

/-- Outcome of one call to http_session.get or http_session.post. -/
inductive Attempt where
  /-- aiohttp ClientConnectionError raised by the transport; the response
  variable of the surrounding with statement is not bound. -/
  | connError
  /-- any other exception raised by the transport call; caught by the
  broad except clause, which breaks out of the loop. -/
  | raiseOther
  | resp (r : HttpResponse)
deriving Repr, DecidableEq

/-- Outcome of one Redis read: the store raised (suppressed by the
caller), missed, or returned a value. -/
inductive CacheRead (α : Type) where
  | err
  | ok (v : Option α)
deriving Repr, DecidableEq

/-- The frozen dataclass AppESIResult. -/
structure AppESIResult where
  status : Nat
  data : Option (List Nat)
deriving Repr, DecidableEq

/-- One rc.setex call: key, value and TTL in seconds. -/
structure CacheWrite where
  key : String
  value : String
  ttl : Int
deriving Repr, DecidableEq

/-- A Python dict of strings, as an insertion-ordered association list. -/
abbrev StrDict := List (String × String)

/-- dict assignment d[k] = v: replace in place, else append. -/
def dictSet (m : StrDict) (k v : String) : StrDict :=
  if m.any (fun p => p.1 == k) then
    m.map (fun p => if p.1 == k then (k, v) else p)
  else
    m ++ [(k, v)]

/-- dict lookup d.get(k). -/
def dictGet (m : StrDict) (k : String) : Option String :=
  (m.find? (fun p => p.1 == k)).map (fun p => p.2)

/-- self.url: the canonical request identity string from URL plus query
parameters; an absent or empty parameter dict (both falsy) leaves the
URL untouched. -/
def urlOf (url : String) (params : Option StrDict) : String :=
  match params with
  | some ps =>
      if ps.isEmpty then url
      else url ++ "?" ++ String.intercalate "&" (ps.map (fun p => p.1 ++ "=" ++ p.2))
  | none => url

/-- json.dumps of an abstracted payload. -/
def jsonDumps (b : List Nat) : String := toString b

/-- Cached JSON read of get and pages: err and miss both leave
previous_json at None; a stored value parses back to itself. -/
def readJson (r : CacheRead (List Nat)) : Option (List Nat) :=
  match r with
  | .ok (some b) => some b
  | _ => none

/-- Cached etag read: err leaves previous_etag at None. -/
def readEtag (r : CacheRead String) : Option String :=
  match r with
  | .ok v => v
  | .err => none

/-- Cached page-count read of pages: err and miss leave previous_pages
at 0. -/
def readPages (r : CacheRead Int) : Int :=
  match r with
  | .ok (some v) => v
  | _ => 0

/-- External world of one call to AppESI.get: the two cache reads and
the outcome of each successive transport attempt. -/
structure GetEnv where
  jsonRead : CacheRead (List Nat)
  etagRead : CacheRead String
  attempts : Nat → Attempt

/-- State threaded through the retry loop of get. -/
structure GetLoopSt where
  result_status : Nat
  result_data : Option (List Nat)
  /-- whether any attempt has bound the response variable. -/
  responseBound : Bool
  events : List Event
  writes : List CacheWrite
  idx : Nat
deriving Repr

/-- The while loop of AppESI.get (src/app/esi.py lines 82-128), fuel
being attempts_remaining at the loop test.  Every branch mirrors the
source: 200 decodes, optionally caches (skipped when the Expires parse
raises, which breaks with the data already assigned) and breaks; 304
reuses previous_json and breaks; bad-request and forbidden zero the
budget; other statuses and connection errors decrement and sleep when
attempts remain; any other exception breaks. -/
def getLoop (c : AppConstants) (env : GetEnv) (previous_json : Option (List Nat))
    (json_key etag_key : String) : Nat → GetLoopSt → GetLoopSt
  | 0, st => st
  | Nat.succ fuel, st =>
    if st.result_data.isSome then st else
    match env.attempts st.idx with
    | .connError =>
        if fuel > 0 then
          getLoop c env previous_json json_key etag_key fuel
            { st with
                idx := st.idx + 1
                events := st.events ++ [Event.attempt, Event.sleep c.ESI_ERROR_SLEEP_TIME] }
        else
          { st with idx := st.idx + 1, events := st.events ++ [Event.attempt] }
    | .raiseOther =>
        { st with idx := st.idx + 1, events := st.events ++ [Event.attempt] }
    | .resp r =>
        if r.status == 200 then
          match r.jsonResult with
          | none =>
              { st with
                  idx := st.idx + 1
                  events := st.events ++ [Event.attempt]
                  result_status := r.status
                  responseBound := true }
          | some rj =>
            match r.etag, rj with
            | some e, some body =>
              match r.expires with
              | some ExpiresParse.parseFail =>
                  { st with
                      idx := st.idx + 1
                      events := st.events ++ [Event.attempt]
                      result_status := r.status
                      responseBound := true
                      result_data := rj }
              | some (ExpiresParse.seconds s) =>
                  { st with
                      idx := st.idx + 1
                      events := st.events ++ [Event.attempt]
                      result_status := r.status
                      responseBound := true
                      result_data := rj
                      writes := st.writes ++
                      [⟨json_key, jsonDumps body, s⟩, ⟨etag_key, e, s⟩] }
              | none =>
                  { st with
                      idx := st.idx + 1
                      events := st.events ++ [Event.attempt]
                      result_status := r.status
                      responseBound := true
                      result_data := rj
                      writes := st.writes ++
                      [⟨json_key, jsonDumps body, KV_LIFETIME⟩, ⟨etag_key, e, KV_LIFETIME⟩] }
            | _, _ =>
                { st with
                    idx := st.idx + 1
                    events := st.events ++ [Event.attempt]
                    result_status := r.status
                    responseBound := true
                    result_data := rj }
        else if r.status == 304 then
          { st with
              idx := st.idx + 1
              events := st.events ++ [Event.attempt]
              result_status := r.status
              responseBound := true
              result_data := previous_json }
        else if r.status == 400 || r.status == 403 then
          { st with
              idx := st.idx + 1
              events := st.events ++ [Event.attempt]
              result_status := r.status
              responseBound := true }
        else if fuel > 0 then
          getLoop c env previous_json json_key etag_key fuel
            { st with
                idx := st.idx + 1
                result_status := r.status
                responseBound := true
                events := st.events ++ [Event.attempt,
                Event.sleep (c.ESI_ERROR_SLEEP_TIME * sleepModifier c r.status)] }
        else
          { st with
              idx := st.idx + 1
              events := st.events ++ [Event.attempt]
              result_status := r.status
              responseBound := true }

/-- Full observable outcome of one call to AppESI.get. -/
structure GetOutput where
  /-- the returned AppESIResult, or the exception the call raises. -/
  result : Except PyErr AppESIResult
  events : List Event
  writes : List CacheWrite
  /-- headers passed to every http_session.get of this call. -/
  sentHeaders : StrDict
  /-- params passed to every http_session.get of this call. -/
  sentParams : Option StrDict
  /-- the caller-owned request_headers dict after the call returns. -/
  callerHeaders : Option StrDict
deriving Repr, DecidableEq

/-- AppESI.get (src/app/esi.py lines 55-131).  The statement
request_headers = request_headers or dict() substitutes a fresh dict for
a falsy (absent or empty) caller dict, so only a non-empty caller dict
observes the mutation.  The conditional validator is attached only when
both the cached etag and the cached body were read.  The final log
statement reads response.url, so a call in which no attempt ever bound
the response variable raises UnboundLocalError. -/
def get (c : AppConstants) (env : GetEnv) (url : String)
    (request_headers : Option StrDict) (request_params : Option StrDict) : GetOutput :=
  let callerTruthy : Bool :=
    match request_headers with
    | some hs => !hs.isEmpty
    | none => false
  let headers0 : StrDict :=
    match request_headers with
    | some hs => if hs.isEmpty then [] else hs
    | none => []
  let redis_url : String := urlOf url request_params
  let etag_key : String := ETAG_PREF ++ redis_url
  let json_key : String := JSON_PREF ++ redis_url
  let previous_json : Option (List Nat) := readJson env.jsonRead
  let previous_etag : Option String := readEtag env.etagRead
  let headers1 : StrDict :=
    match previous_etag, previous_json with
    | some e, some _ => dictSet headers0 IF_NON_MATCH e
    | _, _ => headers0
  let st := getLoop c env previous_json json_key etag_key
    c.ESI_ERROR_RETRY_COUNT ⟨404, none, false, [], [], 0⟩
  { result :=
      if st.responseBound then Except.ok ⟨st.result_status, st.result_data⟩
      else Except.error PyErr.unboundLocalResponse
    events := st.events
    writes := st.writes
    sentHeaders := headers1
    sentParams := request_params
    callerHeaders := if callerTruthy then some headers1 else request_headers }

/-- External world of one call to AppESI.post: the outcome of each
successive transport attempt (post touches no cache). -/
structure PostEnv where
  attempts : Nat → Attempt

/-- State threaded through the retry loop of post. -/
structure PostLoopSt where
  result_status : Nat
  result_data : Option (List Nat)
  events : List Event
  idx : Nat
deriving Repr

/-- The while loop of AppESI.post (src/app/esi.py lines 140-167): like
the get loop but with no caching, no 304 handling, and a permanent
status set that additionally contains unauthorized (401). -/
def postLoop (c : AppConstants) (env : PostEnv) : Nat → PostLoopSt → PostLoopSt
  | 0, st => st
  | Nat.succ fuel, st =>
    if st.result_data.isSome then st else
    match env.attempts st.idx with
    | .connError =>
        if fuel > 0 then
          postLoop c env fuel
            { st with
                idx := st.idx + 1
                events := st.events ++ [Event.attempt, Event.sleep c.ESI_ERROR_SLEEP_TIME] }
        else
          { st with idx := st.idx + 1, events := st.events ++ [Event.attempt] }
    | .raiseOther =>
        { st with idx := st.idx + 1, events := st.events ++ [Event.attempt] }
    | .resp r =>
        if r.status == 200 then
          match r.jsonResult with
          | none =>
              { st with
                  idx := st.idx + 1
                  events := st.events ++ [Event.attempt]
                  result_status := r.status }
          | some rj =>
              { st with
                  idx := st.idx + 1
                  events := st.events ++ [Event.attempt]
                  result_status := r.status
                  result_data := rj }
        else if r.status == 400 || r.status == 403 || r.status == 401 then
          { st with
              idx := st.idx + 1
              events := st.events ++ [Event.attempt]
              result_status := r.status }
        else if fuel > 0 then
          postLoop c env fuel
            { st with
                idx := st.idx + 1
                result_status := r.status
                events := st.events ++ [Event.attempt,
                Event.sleep (c.ESI_ERROR_SLEEP_TIME * sleepModifier c r.status)] }
        else
          { st with
              idx := st.idx + 1
              events := st.events ++ [Event.attempt]
              result_status := r.status }

/-- Observable outcome of one call to AppESI.post.  No statement after
the loop reads the response variable, so post never raises. -/
structure PostOutput where
  result : AppESIResult
  events : List Event
deriving Repr

/-- AppESI.post (src/app/esi.py lines 133-169).  The url, headers,
params and body arguments are forwarded to the transport unchanged and
do not influence the modelled state. -/
def post (c : AppConstants) (env : PostEnv) (url : String)
    (body : Option StrDict) (request_headers : Option StrDict)
    (request_params : Option StrDict) : PostOutput :=
  let st := postLoop c env c.ESI_ERROR_RETRY_COUNT ⟨404, none, [], 0⟩
  { result := ⟨st.result_status, st.result_data⟩
    events := st.events }

/-- External world of one call to AppESI.pages: the three cache reads
for the base identity, the transport outcomes for the first-page loop,
and, for every page number, the environment of the AppESI.get call that
fetches that page. -/
structure PagesEnv where
  jsonRead : CacheRead (List Nat)
  pagesRead : CacheRead Int
  etagRead : CacheRead String
  firstAttempts : Nat → Attempt
  pageEnv : Nat → GetEnv

/-- State threaded through the first-page retry loop of pages. -/
structure PagesLoopSt where
  result_status : Nat
  result_data : Option (List Nat)
  maxpageno : Int
  events : List Event
  writes : List CacheWrite
  idx : Nat
deriving Repr

/-- The first-page while loop of AppESI.pages (src/app/esi.py lines
226-281).  Differences from the get loop, mirrored from the source: on
200 the X-Pages header is read (default 1) before json(); the cache
write also stores the page count; the caching block runs before
result_data is assigned, so an Expires parse failure breaks with
result_data still None; on 200 and on 304 a fresh list is assigned and
then extended, so extending a None payload breaks with an already
assigned empty list. -/
def pagesLoop (c : AppConstants) (att : Nat → Attempt)
    (previous_json : Option (List Nat)) (previous_pages : Int)
    (json_key pages_key etag_key : String) : Nat → PagesLoopSt → PagesLoopSt
  | 0, st => st
  | Nat.succ fuel, st =>
    if st.result_data.isSome then st else
    match att st.idx with
    | .connError =>
        if fuel > 0 then
          pagesLoop c att previous_json previous_pages json_key pages_key etag_key fuel
            { st with
                idx := st.idx + 1
                events := st.events ++ [Event.attempt, Event.sleep c.ESI_ERROR_SLEEP_TIME] }
        else
          { st with idx := st.idx + 1, events := st.events ++ [Event.attempt] }
    | .raiseOther =>
        { st with idx := st.idx + 1, events := st.events ++ [Event.attempt] }
    | .resp r =>
        if r.status == 200 then
          let response_pages : Int := (r.xPages.getD 1 : Nat)
          match r.jsonResult with
          | none =>
              { st with
                  idx := st.idx + 1
                  events := st.events ++ [Event.attempt]
                  result_status := r.status }
          | some rj =>
            let cacheRes : Option (List CacheWrite) :=
              match r.etag, rj with
              | some e, some body =>
                match r.expires with
                | some ExpiresParse.parseFail => none
                | some (ExpiresParse.seconds s) =>
                    some [⟨json_key, jsonDumps body, s⟩,
                          ⟨pages_key, toString response_pages, s⟩,
                          ⟨etag_key, e, s⟩]
                | none =>
                    some [⟨json_key, jsonDumps body, KV_LIFETIME⟩,
                          ⟨pages_key, toString response_pages, KV_LIFETIME⟩,
                          ⟨etag_key, e, KV_LIFETIME⟩]
              | _, _ => some []
            match cacheRes with
            | none =>
                { st with
                    idx := st.idx + 1
                    events := st.events ++ [Event.attempt]
                    result_status := r.status }
            | some ws =>
                { st with
                    idx := st.idx + 1
                    events := st.events ++ [Event.attempt]
                    result_status := r.status
                    writes := st.writes ++ ws
                    maxpageno := response_pages
                    result_data := some (rj.getD []) }
        else if r.status == 304 then
          { st with
              idx := st.idx + 1
              events := st.events ++ [Event.attempt]
              result_status := r.status
              maxpageno := previous_pages
              result_data := some (previous_json.getD []) }
        else if r.status == 400 || r.status == 403 then
          { st with
              idx := st.idx + 1
              events := st.events ++ [Event.attempt]
              result_status := r.status }
        else if fuel > 0 then
          pagesLoop c att previous_json previous_pages json_key pages_key etag_key fuel
            { st with
                idx := st.idx + 1
                result_status := r.status
                events := st.events ++ [Event.attempt,
                Event.sleep (c.ESI_ERROR_SLEEP_TIME * sleepModifier c r.status)] }
        else
          { st with
              idx := st.idx + 1
              events := st.events ++ [Event.attempt]
              result_status := r.status }

/-- The whole first phase of AppESI.pages: the cache reads, the
conditional validator decision (which additionally requires a positive
cached page count) and the first-page loop. -/
def pagesFirst (c : AppConstants) (env : PagesEnv) (url : String)
    (request_params : Option StrDict) : PagesLoopSt :=
  let redis_url : String := urlOf url request_params
  let etag_key : String := ETAG_PREF ++ redis_url
  let pages_key : String := PAGES_PREF ++ redis_url
  let json_key : String := JSON_PREF ++ redis_url
  let previous_json : Option (List Nat) := readJson env.jsonRead
  let previous_pages : Int := readPages env.pagesRead
  pagesLoop c env.firstAttempts previous_json previous_pages
    json_key pages_key etag_key c.ESI_ERROR_RETRY_COUNT ⟨404, none, 0, [], [], 0⟩

/-- The headers dict the first-page loop of pages sends: empty unless
the cached etag, body and a positive page count are all present. -/
def pagesFirstHeaders (env : PagesEnv) : StrDict :=
  match readEtag env.etagRead, readJson env.jsonRead with
  | some e, some _ =>
      if readPages env.pagesRead > 0 then dictSet [] IF_NON_MATCH e else []
  | _, _ => []

/-- One subordinate AppESI.get call issued by the page fan-out. -/
structure SubCall where
  page : Nat
  out : GetOutput
deriving Repr, DecidableEq

/-- list(range(2, 1 + maxpageno)). -/
def pageRange (m : Int) : List Nat :=
  if 2 ≤ m then List.range' 2 (m - 1).toNat else []

/-- asyncio.gather of the fan-out tasks: the first raised exception
propagates, otherwise the results in task-submission order. -/
def collectResults : List SubCall → Except PyErr (List AppESIResult)
  | [] => Except.ok []
  | sc :: rest =>
    match sc.out.result with
    | Except.error e => Except.error e
    | Except.ok r => (collectResults rest).map (fun rs => r :: rs)

/-- The for loop over the gathered page results (src/app/esi.py lines
287-294): an OK or not-modified result has its data appended (extending
a None payload raises TypeError); any other status discards all data,
takes that status and breaks. -/
def gatherFold (status0 : Nat) (acc : List Nat) :
    List AppESIResult → Except PyErr (Nat × Option (List Nat))
  | [] => Except.ok (status0, some acc)
  | r :: rest =>
    if r.status == 200 || r.status == 304 then
      match r.data with
      | some items => gatherFold status0 (acc ++ items) rest
      | none => Except.error PyErr.typeError
    else Except.ok (r.status, none)

/-- Observable outcome of one call to AppESI.pages. -/
structure PagesOutput where
  result : Except PyErr AppESIResult
  firstEvents : List Event
  writes : List CacheWrite
  sentSessionHeaders : StrDict
  firstSentHeaders : StrDict
  subcalls : List SubCall
deriving Repr

/-- The fan-out phase of AppESI.pages (src/app/esi.py lines 283-294) on
top of the first phase: when the first phase produced data and the page
count calls for further pages, the page number is merged into
request_params; with request_params at its None default that merge
raises TypeError before any task is created.  Otherwise one get per
page 2..N is issued with no caller headers, the results are gathered in
task-submission order and folded all-or-nothing.  Returns the overall
result together with the subordinate get calls that were issued. -/
def pagesFanout (c : AppConstants) (env : PagesEnv) (url : String)
    (request_params : Option StrDict) : Except PyErr AppESIResult × List SubCall :=
  let st := pagesFirst c env url request_params
  match st.result_data with
  | none => (Except.ok ⟨st.result_status, none⟩, [])
  | some d0 =>
    let ps : List Nat := pageRange st.maxpageno
    if ps.isEmpty then (Except.ok ⟨st.result_status, some d0⟩, [])
    else
      match request_params with
      | none => (Except.error PyErr.typeError, [])
      | some rp =>
        let subcalls : List SubCall :=
          ps.map (fun x =>
            ⟨x, get c (env.pageEnv x) url none (some (dictSet rp PAGE_PARAM (toString x)))⟩)
        let res : Except PyErr AppESIResult :=
          match collectResults subcalls with
          | Except.error e => Except.error e
          | Except.ok rs =>
            match gatherFold st.result_status d0 rs with
            | Except.error e => Except.error e
            | Except.ok (s, d) => Except.ok ⟨s, d⟩
        (res, subcalls)

/-- AppESI.pages (src/app/esi.py lines 185-297): session headers from
the bearer token, the conditional first phase, then the fan-out. -/
def pages (c : AppConstants) (env : PagesEnv) (url : String)
    (access_token : String) (request_params : Option StrDict) : PagesOutput :=
  let session_headers : StrDict :=
    if access_token.length > 0 then [(AUTH_HEADER, BEARER ++ access_token)] else []
  let st := pagesFirst c env url request_params
  { result := (pagesFanout c env url request_params).1
    firstEvents := st.events
    writes := st.writes
    sentSessionHeaders := session_headers
    firstSentHeaders := pagesFirstHeaders env
    subcalls := (pagesFanout c env url request_params).2 }

/-- The status test of the fan-out for loop: success or not-modified. -/
def okB (r : AppESIResult) : Bool :=
  r.status == 200 || r.status == 304

/-- A transport outcome the retry loop of get treats as transient: a
connection-level failure, or a response whose status is none of 200,
304, 400, 403. -/
def retryable : Attempt → Bool
  | .connError => true
  | .raiseOther => false
  | .resp r =>
      !(r.status == 200) && !(r.status == 304) && !(r.status == 400) && !(r.status == 403)

/-- Concrete configuration used by the witness instantiations. -/
def cW : AppConstants := ⟨3, 5, [], 10⟩

/-- Concrete URL used by the witness instantiations. -/
def uW : String := "u"

/-- A world in which every transport attempt raises a connection error
and the cache store is down. -/
def envAllConn : GetEnv := ⟨.err, .err, fun _ => .connError⟩

def tokW : String := ""

def eWW : String := "W"

def eW2 : String := "E2"

def hdW : StrDict := [("X", "y")]

def r400W : HttpResponse := ⟨400, some none, none, none, none⟩

def r401W : HttpResponse := ⟨401, some none, none, none, none⟩

def r500W : HttpResponse := ⟨500, some none, none, none, none⟩

def env400W : GetEnv := ⟨.ok none, .ok none, fun _ => .resp r400W⟩

def env401W : GetEnv := ⟨.ok none, .ok none, fun _ => .resp r401W⟩

def env500W : GetEnv := ⟨.ok none, .ok none, fun _ => .resp r500W⟩

def envP401W : PostEnv := ⟨fun _ => .resp r401W⟩

def env304W : GetEnv := ⟨.ok none, .ok none, fun _ => .resp ⟨304, some none, none, none, none⟩⟩

def env200W : GetEnv :=
  ⟨.ok none, .ok none, fun _ =>
    .resp ⟨200, some (some [1, 2]), some eWW, some (.seconds 120), none⟩⟩

/-- First-page oracle: success with three total pages and items [1]. -/
def fst3W : Nat → Attempt := fun _ => .resp ⟨200, some (some [1]), none, none, some 3⟩

/-- Per-page worlds: page 2 fails definitively with 500, others succeed. -/
def peBadW : Nat → GetEnv := fun x =>
  if x == 2 then ⟨.ok none, .ok none, fun _ => .resp r500W⟩
  else ⟨.ok none, .ok none, fun _ => .resp ⟨200, some (some [3]), none, none, none⟩⟩

def penvBadW : PagesEnv := ⟨.ok none, .ok none, .ok none, fst3W, peBadW⟩

/-- Per-page worlds: every page succeeds with items [x, x]. -/
def peOkW : Nat → GetEnv := fun x =>
  ⟨.ok none, .ok none, fun _ => .resp ⟨200, some (some [x, x]), none, none, none⟩⟩

def penvOkW : PagesEnv := ⟨.ok none, .ok none, .ok none, fst3W, peOkW⟩

/-- First-page oracle: success with two total pages and items [1]. -/
def fst2W : Nat → Attempt := fun _ => .resp ⟨200, some (some [1]), none, none, some 2⟩

def penvNoParamsW : PagesEnv := ⟨.ok none, .ok none, .ok none, fst2W, peOkW⟩

/-- Per-page worlds: page 2 has a cached etag and body and replies
not-modified; others succeed. -/
def peCacheW : Nat → GetEnv := fun x =>
  if x == 2 then
    ⟨.ok (some [9]), .ok (some eW2), fun _ => .resp ⟨304, some none, none, none, none⟩⟩
  else ⟨.ok none, .ok none, fun _ => .resp ⟨200, some (some [3]), none, none, none⟩⟩

def penvSubCacheW : PagesEnv := ⟨.ok none, .ok none, .ok none, fst2W, peCacheW⟩

def subrBadW : Nat → AppESIResult := fun x =>
  if x == 2 then ⟨500, none⟩ else ⟨200, some [3]⟩

def subrOkW : Nat → AppESIResult := fun x => ⟨200, some [x, x]⟩

def subOkW : Nat → List Nat := fun x => [x, x]

def scW : SubCall :=
  ⟨2, get cW (peCacheW 2) uW none (some (dictSet [] PAGE_PARAM (toString 2)))⟩

/-- A world with a cached body and etag for the identity, where the
upstream replies not-modified. -/
def envCacheW : GetEnv :=
  ⟨.ok (some [7]), .ok (some eWW), fun _ => .resp ⟨304, some none, none, none, none⟩⟩

/-- A world whose base identity has cached body, etag and page count. -/
def penvPosW : PagesEnv := ⟨.ok (some [1]), .ok (some 4), .ok (some eWW), fst2W, peOkW⟩

/-- C1: refuted on the code (code bug).  A get call in which every
transport attempt fails with a connection-level error does not return an
AppESIResult: the final logging statement of get reads response.url
although the response variable was never bound on any attempt, so
UnboundLocalError propagates to the caller, against the never-raise
propagation policy. -/
theorem get_conn_errors_raise_unbound_local :
    (get cW envAllConn uW none none).result = Except.error PyErr.unboundLocalResponse := rfl

/-- C8: a get receiving a not-modified (304) response when no cached
body was read returns a Result with status 304 and absent data, after
exactly one transport attempt (no retry follows the 304). -/
theorem not_modified_without_cached_body_fails (c : AppConstants) (env : GetEnv) (url : String)
    (rh rp : Option StrDict) (r : HttpResponse)
    (hb : 1 ≤ c.ESI_ERROR_RETRY_COUNT)
    (hat : env.attempts 0 = .resp r) (hst : r.status = 304)
    (hjson : readJson env.jsonRead = none) :
    (get c env url rh rp).result = Except.ok ⟨304, none⟩ ∧
      attemptsMade (get c env url rh rp).events = 1 := by
  obtain ⟨n, hn⟩ := Nat.exists_eq_add_of_le hb
  unfold get
  rw [hn, Nat.add_comm]
  simp only [getLoop, hat, hst, hjson]
  norm_num [attemptsMade, Event.isAttempt]

/-- C9: on a successful (200) get response carrying an etag and a body,
the two cache writes (body and etag) use a TTL equal to the parsed
number of seconds until the Expires timestamp when that header is
present and parseable, and the default lifetime 3600 when the header is
absent. -/
theorem cache_ttl_from_expires_or_default (c : AppConstants) (env : GetEnv) (url : String)
    (rh rp : Option StrDict) (body : List Nat) (etg : String)
    (expOpt : Option ExpiresParse) (xp : Option Nat)
    (hb : 1 ≤ c.ESI_ERROR_RETRY_COUNT)
    (hat : env.attempts 0 = .resp ⟨200, some (some body), some etg, expOpt, xp⟩) :
    (∀ s : Int, expOpt = some (.seconds s) →
      (get c env url rh rp).writes =
        [⟨JSON_PREF ++ urlOf url rp, jsonDumps body, s⟩,
         ⟨ETAG_PREF ++ urlOf url rp, etg, s⟩]) ∧
    (expOpt = none →
      (get c env url rh rp).writes =
        [⟨JSON_PREF ++ urlOf url rp, jsonDumps body, KV_LIFETIME⟩,
         ⟨ETAG_PREF ++ urlOf url rp, etg, KV_LIFETIME⟩]) := by
  obtain ⟨n, hn⟩ := Nat.exists_eq_add_of_le hb
  unfold get
  rw [hn, Nat.add_comm]
  constructor
  · intro s hsx
    subst hsx
    simp [getLoop, hat]
  · intro hsx
    subst hsx
    simp [getLoop, hat]

theorem getLoop_retryable (c : AppConstants) (env : GetEnv) (pj : Option (List Nat))
    (jk ek : String)
    (hre : ∀ i, retryable (env.attempts i) = true) :
    ∀ (f : Nat) (st : GetLoopSt), st.result_data = none →
      ∃ tail, (getLoop c env pj jk ek f st).events = st.events ++ tail ∧
        attemptsMade tail = f ∧ sleepCount tail = f - 1 ∧
        (getLoop c env pj jk ek f st).result_data = none ∧
        (1 ≤ f → tail.getLast? = some Event.attempt) := by
  intro f
  induction f with
  | zero =>
    intro st h
    exact ⟨[], by simp [getLoop], by simp [attemptsMade],
      by simp [sleepCount], by simpa [getLoop], by omega⟩
  | succ g ih =>
    intro st hdata
    have hre0 := hre st.idx
    rcases hat : env.attempts st.idx with _ | _ | r
    · by_cases hg : 0 < g
      · obtain ⟨tail, hev, ha, hsl, hd, hl⟩ := ih
          { st with
              idx := st.idx + 1
              events := st.events ++ [Event.attempt, Event.sleep c.ESI_ERROR_SLEEP_TIME] }
          hdata
        have htail : tail.getLast? = some Event.attempt := hl hg
        have hne : tail ≠ [] := by
          intro hcon; rw [hcon] at htail; simp at htail
        refine ⟨[Event.attempt, Event.sleep c.ESI_ERROR_SLEEP_TIME] ++ tail, ?_, ?_, ?_, ?_, ?_⟩
        · simp only [getLoop, hdata, hat, if_pos hg] at hev ⊢
          simp only [Option.isSome_none, Bool.false_eq_true, if_false] at hev ⊢
          rw [hev]
          simp
        · simp [attemptsMade, Event.isAttempt] at ha ⊢
          omega
        · simp [sleepCount, Event.isAttempt] at hsl ⊢
          omega
        · simp only [getLoop, hdata, hat, if_pos hg] at hd ⊢
          simpa using hd
        · intro _
          cases tail with
          | nil => simp at htail
          | cons a l => simpa [List.getLast?_cons_cons] using htail
      · have hg0 : g = 0 := by omega
        subst hg0
        refine ⟨[Event.attempt], ?_, ?_, ?_, ?_, ?_⟩
        · simp [getLoop, hdata, hat]
        · simp [attemptsMade, Event.isAttempt]
        · simp [sleepCount, Event.isAttempt]
        · simp [getLoop, hdata, hat]
        · intro _; rfl
    · simp [retryable, hat] at hre0
    · simp only [retryable, hat, Bool.and_eq_true, Bool.not_eq_true'] at hre0
      obtain ⟨⟨⟨h200, h304⟩, h400⟩, h403⟩ := hre0
      by_cases hg : 0 < g
      · obtain ⟨tail, hev, ha, hsl, hd, hl⟩ := ih
          { st with
              idx := st.idx + 1
              result_status := r.status
              responseBound := true
              events := st.events ++ [Event.attempt,
                Event.sleep (c.ESI_ERROR_SLEEP_TIME * sleepModifier c r.status)] }
          hdata
        have htail : tail.getLast? = some Event.attempt := hl hg
        have hne : tail ≠ [] := by
          intro hcon; rw [hcon] at htail; simp at htail
        refine ⟨[Event.attempt,
          Event.sleep (c.ESI_ERROR_SLEEP_TIME * sleepModifier c r.status)] ++ tail,
          ?_, ?_, ?_, ?_, ?_⟩
        · simp only [getLoop, hdata, hat, h200, h304, h400, h403, if_pos hg] at hev ⊢
          simp only [Option.isSome_none, Bool.false_eq_true, if_false, Bool.or_self] at hev ⊢
          rw [hev]
          simp
        · simp [attemptsMade, Event.isAttempt] at ha ⊢
          omega
        · simp [sleepCount, Event.isAttempt] at hsl ⊢
          omega
        · simp only [getLoop, hdata, hat, h200, h304, h400, h403, if_pos hg] at hd ⊢
          simpa using hd
        · intro _
          cases tail with
          | nil => simp at htail
          | cons a l => simpa [List.getLast?_cons_cons] using htail
      · have hg0 : g = 0 := by omega
        subst hg0
        refine ⟨[Event.attempt], ?_, ?_, ?_, ?_, ?_⟩
        · simp [getLoop, hdata, hat, h200, h304, h400, h403]
        · simp [attemptsMade, Event.isAttempt]
        · simp [sleepCount, Event.isAttempt]
        · simp [getLoop, hdata, hat, h200, h304, h400, h403]
        · intro _; rfl

theorem find?_map_replace (k v : String) :
    ∀ m : StrDict, m.any (fun p => p.1 == k) = true →
      (m.map (fun p => if p.1 == k then (k, v) else p)).find? (fun p => p.1 == k) =
        some (k, v) := by
  intro m
  induction m with
  | nil => intro h; simp at h
  | cons p m ih =>
    intro h
    by_cases hp : p.1 == k
    · simp only [List.map_cons, if_pos hp]
      rw [List.find?_cons_of_pos _ (by simp)]
    · simp only [List.any_cons, hp, Bool.false_or] at h
      simp only [List.map_cons, if_neg hp]
      rw [List.find?_cons_of_neg _ (by simpa using hp)]
      exact ih h

theorem find?_append_self (k v : String) :
    ∀ m : StrDict, m.any (fun p => p.1 == k) = false →
      (m ++ [(k, v)]).find? (fun p => p.1 == k) = some (k, v) := by
  intro m
  induction m with
  | nil => simp [List.find?]
  | cons p m ih =>
    intro h
    simp only [List.any_cons, Bool.or_eq_false_iff] at h
    rw [List.cons_append, List.find?_cons_of_neg _ (by simp [h.1])]
    exact ih h.2

theorem dictGet_dictSet_self (m : StrDict) (k v : String) :
    dictGet (dictSet m k v) k = some v := by
  by_cases hany : m.any (fun p => p.1 == k)
  · unfold dictGet dictSet
    rw [if_pos hany, find?_map_replace k v m hany]
    rfl
  · unfold dictGet dictSet
    rw [if_neg hany, find?_append_self k v m
      (by simp only [Bool.not_eq_true] at hany; exact hany)]
    rfl

/-- C6: under a configured budget of N attempts and any sequence of
retryable (non-permanent) failure responses or connection-level
failures, the loop issues exactly N (hence at most N) transport
attempts, sleeps exactly N-1 times, and the trace ends with an attempt,
never a sleep; termination holds by construction of the embedding. -/
theorem retry_budget_bound_and_backoff (c : AppConstants) (env : GetEnv) (url : String) (rh rp : Option StrDict)
    (hre : ∀ i, retryable (env.attempts i) = true)
    (hb : 1 ≤ c.ESI_ERROR_RETRY_COUNT) :
    attemptsMade (get c env url rh rp).events = c.ESI_ERROR_RETRY_COUNT ∧
    attemptsMade (get c env url rh rp).events ≤ c.ESI_ERROR_RETRY_COUNT ∧
    sleepCount (get c env url rh rp).events = c.ESI_ERROR_RETRY_COUNT - 1 ∧
    (get c env url rh rp).events.getLast? = some Event.attempt := by
  obtain ⟨tail, hev, ha, hsl, hd, hl⟩ :=
    getLoop_retryable c env (readJson env.jsonRead) (JSON_PREF ++ urlOf url rp)
      (ETAG_PREF ++ urlOf url rp) hre c.ESI_ERROR_RETRY_COUNT
      ⟨404, none, false, [], [], 0⟩ rfl
  unfold get
  simp only [hev, List.nil_append] at *
  simp_all

/-- C5: a bad-request or forbidden GET response receives exactly one
transport attempt and no backoff sleep regardless of the configured
budget; an unauthorized POST response likewise receives exactly one
attempt and no sleep; an unauthorized GET response is retried to the
full budget like any transient failure. -/
theorem permanent_statuses_single_attempt (c : AppConstants) (envG envG2 : GetEnv) (envP : PostEnv)
    (url : String) (rh rp bd : Option StrDict)
    (r0 r1 : HttpResponse) (rs : Nat → HttpResponse)
    (hb : 1 ≤ c.ESI_ERROR_RETRY_COUNT)
    (hs : r0.status = 400 ∨ r0.status = 403)
    (h0 : envG.attempts 0 = .resp r0)
    (h1 : envP.attempts 0 = .resp r1) (h1s : r1.status = 401)
    (h2 : ∀ i, envG2.attempts i = .resp (rs i)) (h2s : ∀ i, (rs i).status = 401) :
    (attemptsMade (get c envG url rh rp).events = 1 ∧
      sleepCount (get c envG url rh rp).events = 0) ∧
    (attemptsMade (post c envP url bd rh rp).events = 1 ∧
      sleepCount (post c envP url bd rh rp).events = 0) ∧
    attemptsMade (get c envG2 url rh rp).events = c.ESI_ERROR_RETRY_COUNT := by
  obtain ⟨n, hn⟩ := Nat.exists_eq_add_of_le hb
  refine ⟨?_, ?_, ?_⟩
  · unfold get
    rw [hn, Nat.add_comm]
    rcases hs with h | h <;>
      simp [getLoop, h0, h, attemptsMade, sleepCount, Event.isAttempt]
  · unfold post
    rw [hn, Nat.add_comm]
    simp [postLoop, h1, h1s, attemptsMade, sleepCount, Event.isAttempt]
  · have hre : ∀ i, retryable (envG2.attempts i) = true := by
      intro i
      simp [retryable, h2 i, h2s i]
    obtain ⟨tail, hev, ha, hsl, hd, hl⟩ :=
      getLoop_retryable c envG2 (readJson envG2.jsonRead) (JSON_PREF ++ urlOf url rp)
        (ETAG_PREF ++ urlOf url rp) hre c.ESI_ERROR_RETRY_COUNT
        ⟨404, none, false, [], [], 0⟩ rfl
    unfold get
    simp only [hev, List.nil_append] at *
    simp_all

theorem get_validator_iff (c : AppConstants) (env : GetEnv) (url : String)
    (rh rp : Option StrDict)
    (hrh : ∀ hs, rh = some hs → dictGet hs IF_NON_MATCH = none) :
    dictGet (get c env url rh rp).sentHeaders IF_NON_MATCH ≠ none ↔
      ((∃ e, env.etagRead = CacheRead.ok (some e)) ∧
       (∃ b, env.jsonRead = CacheRead.ok (some b))) := by
  rcases rh with _ | hs
  · unfold get
    rcases he : env.etagRead with _ | ⟨_ | e⟩ <;>
      rcases hj : env.jsonRead with _ | ⟨_ | b⟩ <;>
        simp only [he, hj, readEtag, readJson] <;>
        first
          | (rw [dictGet_dictSet_self]; simp)
          | simp [dictGet]
  · have hh0 : dictGet hs IF_NON_MATCH = none := hrh hs rfl
    unfold get
    by_cases hemp : hs.isEmpty <;>
      rcases he : env.etagRead with _ | ⟨_ | e⟩ <;>
        rcases hj : env.jsonRead with _ | ⟨_ | b⟩ <;>
          simp only [he, hj, hemp, readEtag, readJson, Bool.false_eq_true, if_true, if_false] <;>
          first
            | (rw [dictGet_dictSet_self]; simp)
            | (simp [hh0]; done)
            | simp [dictGet]

theorem collectResults_map (c : AppConstants) (pe : Nat → GetEnv) (url : String)
    (rp : StrDict) (subr : Nat → AppESIResult) :
    ∀ ps : List Nat,
      (∀ x ∈ ps, (get c (pe x) url none (some (dictSet rp PAGE_PARAM (toString x)))).result
          = Except.ok (subr x)) →
      collectResults (ps.map (fun x =>
          ⟨x, get c (pe x) url none (some (dictSet rp PAGE_PARAM (toString x)))⟩)) =
        Except.ok (ps.map subr) := by
  intro ps
  induction ps with
  | nil => intro _; rfl
  | cons p ps ih =>
    intro h
    simp only [List.map_cons, collectResults, h p (by simp)]
    rw [ih (fun x hx => h x (by simp [hx]))]
    rfl

theorem gatherFold_ok (status0 : Nat) (subr : Nat → AppESIResult) (sub : Nat → List Nat) :
    ∀ (ps : List Nat) (acc : List Nat),
      (∀ x ∈ ps, okB (subr x) = true ∧ (subr x).data = some (sub x)) →
      gatherFold status0 acc (ps.map subr) =
        Except.ok (status0, some (acc ++ (ps.map sub).flatten)) := by
  intro ps
  induction ps with
  | nil => intro acc _; simp [gatherFold]
  | cons p ps ih =>
    intro acc h
    obtain ⟨hok, hd⟩ := h p (by simp)
    simp only [okB] at hok
    simp only [List.map_cons, gatherFold, hok, if_true, hd]
    rw [ih (acc ++ sub p) (fun x hx => h x (by simp [hx]))]
    simp [List.append_assoc]

theorem gatherFold_bad (status0 : Nat) (subr : Nat → AppESIResult) :
    ∀ (ps : List Nat) (acc : List Nat),
      (∀ x ∈ ps, okB (subr x) = true → (subr x).data.isSome) →
      (∃ x ∈ ps, okB (subr x) = false) →
      ∃ psg x psr, ps = psg ++ x :: psr ∧ (∀ y ∈ psg, okB (subr y) = true) ∧
        okB (subr x) = false ∧
        gatherFold status0 acc (ps.map subr) = Except.ok ((subr x).status, none) := by
  intro ps
  induction ps with
  | nil => intro acc _ hbad; simp at hbad
  | cons p ps ih =>
    intro acc hgood hbad
    by_cases hp : okB (subr p) = true
    · obtain ⟨d, hd⟩ := Option.isSome_iff_exists.mp (hgood p (by simp) hp)
      have hbad2 : ∃ x ∈ ps, okB (subr x) = false := by
        rcases hbad with ⟨x, hx, hbx⟩
        rcases List.mem_cons.mp hx with rfl | hx2
        · rw [hp] at hbx; cases hbx
        · exact ⟨x, hx2, hbx⟩
      obtain ⟨psg, x, psr, hdec, hg, hbx, hfold⟩ :=
        ih (acc ++ d) (fun y hy => hgood y (by simp [hy])) hbad2
      refine ⟨p :: psg, x, psr, by simp [hdec], ?_, hbx, ?_⟩
      · intro y hy
        rcases List.mem_cons.mp hy with rfl | hy2
        · exact hp
        · exact hg y hy2
      · have hok := hp
        simp only [okB] at hok
        simp only [List.map_cons, gatherFold, hok, if_true, hd]
        exact hfold
    · have hpf : okB (subr p) = false := by
        cases h : okB (subr p)
        · rfl
        · exact absurd h hp
      refine ⟨[], p, ps, rfl, by simp, hpf, ?_⟩
      have hok := hpf
      simp only [okB] at hok
      simp only [List.map_cons, gatherFold, hok]
      simp

theorem pagesFanout_subcalls (c : AppConstants) (env : PagesEnv) (url : String)
    (rp0 : Option StrDict) :
    ∀ sc ∈ (pagesFanout c env url rp0).2, ∃ x rp, rp0 = some rp ∧
      x ∈ pageRange (pagesFirst c env url rp0).maxpageno ∧
      sc = ⟨x, get c (env.pageEnv x) url none (some (dictSet rp PAGE_PARAM (toString x)))⟩ := by
  intro sc hsc
  unfold pagesFanout at hsc
  rcases hd : (pagesFirst c env url rp0).result_data with _ | d0 <;>
    simp only [hd] at hsc
  · simp at hsc
  · by_cases hps : (pageRange (pagesFirst c env url rp0).maxpageno).isEmpty <;>
      simp only [hps, if_true, if_false, Bool.false_eq_true] at hsc
    · simp at hsc
    · rcases rp0 with _ | rp
      · simp at hsc
      · simp only [List.mem_map] at hsc
        obtain ⟨x, hx, hxeq⟩ := hsc
        exact ⟨x, rp, rfl, hx, hxeq.symm⟩

/-- C7 (amended): the page 2..N requests are issued with no
caller-supplied headers, so they never reuse the first-page validator;
each subordinate get applies its own cache logic, attaching
If-None-Match exactly when a cached etag and a cached body exist for
that per-page identity, and is unconditional when they do not. -/
theorem pages_subrequest_validator_from_own_cache (c : AppConstants) (env : PagesEnv) (url tok : String)
    (rp0 : Option StrDict) :
    ∀ sc ∈ (pages c env url tok rp0).subcalls,
      (dictGet sc.out.sentHeaders IF_NON_MATCH ≠ none ↔
        ((∃ e, (env.pageEnv sc.page).etagRead = CacheRead.ok (some e)) ∧
         (∃ b, (env.pageEnv sc.page).jsonRead = CacheRead.ok (some b)))) := by
  intro sc hsc
  obtain ⟨x, rp, _, _, hpe⟩ := pagesFanout_subcalls c env url rp0 sc hsc
  subst hpe
  exact get_validator_iff c (env.pageEnv x) url none
    (some (dictSet rp PAGE_PARAM (toString x))) (fun hs h => nomatch h)

/-- C3: pages is all-or-nothing.  If the first page produced data and
among the fetched pages 2..N each fetch yields a well-formed Result
(data present whenever the status is success or not-modified) but some
page has a status that is neither 200 nor 304, the call returns a Result
with absent data carrying the status of the first failing page in page
order, however many other pages succeeded. -/
theorem pages_all_or_nothing (c : AppConstants) (env : PagesEnv) (url tok : String) (rp : StrDict)
    (d0 : List Nat) (subr : Nat → AppESIResult)
    (hd : (pagesFirst c env url (some rp)).result_data = some d0)
    (hsub : ∀ x ∈ pageRange (pagesFirst c env url (some rp)).maxpageno,
      (get c (env.pageEnv x) url none (some (dictSet rp PAGE_PARAM (toString x)))).result
        = Except.ok (subr x))
    (hgood : ∀ x ∈ pageRange (pagesFirst c env url (some rp)).maxpageno,
      okB (subr x) = true → (subr x).data.isSome)
    (hbad : ∃ x ∈ pageRange (pagesFirst c env url (some rp)).maxpageno,
      okB (subr x) = false) :
    ∃ psg x psr, pageRange (pagesFirst c env url (some rp)).maxpageno = psg ++ x :: psr ∧
      (∀ y ∈ psg, okB (subr y) = true) ∧ okB (subr x) = false ∧
      (pages c env url tok (some rp)).result = Except.ok ⟨(subr x).status, none⟩ := by
  have hne : (pageRange (pagesFirst c env url (some rp)).maxpageno).isEmpty = false := by
    rcases hbad with ⟨x, hx, _⟩
    rcases hps : pageRange (pagesFirst c env url (some rp)).maxpageno with _ | ⟨a, l⟩
    · rw [hps] at hx; simp at hx
    · rfl
  obtain ⟨psg, x, psr, hdec, hg, hbx, hfold⟩ :=
    gatherFold_bad (pagesFirst c env url (some rp)).result_status subr
      (pageRange (pagesFirst c env url (some rp)).maxpageno) d0 hgood hbad
  refine ⟨psg, x, psr, hdec, hg, hbx, ?_⟩
  have hcoll := collectResults_map c env.pageEnv url rp subr
    (pageRange (pagesFirst c env url (some rp)).maxpageno) hsub
  show (pagesFanout c env url (some rp)).1 = _
  unfold pagesFanout
  simp only [hd, hne, Bool.false_eq_true, if_false]
  rw [hcoll]
  simp [hfold]

/-- C4 (amended): for a call to pages with a supplied (non-None)
request_params dict whose first page produced data and reported a total
page count of N at least 2, the orchestrator issues exactly N-1
subordinate get calls, one per page 2..N in increasing order with the
page number merged into the query parameters and no caller headers, and
when every page succeeds with data the returned Result keeps the first
phase status and concatenates page one with the pages in strictly
increasing page-number order (gather preserves task-submission order
independent of completion order). -/
theorem pages_fanout_count_and_order (c : AppConstants) (env : PagesEnv) (url tok : String) (rp : StrDict)
    (d0 : List Nat) (subr : Nat → AppESIResult) (sub : Nat → List Nat)
    (hd : (pagesFirst c env url (some rp)).result_data = some d0)
    (hN : 2 ≤ (pagesFirst c env url (some rp)).maxpageno)
    (hsub : ∀ x ∈ pageRange (pagesFirst c env url (some rp)).maxpageno,
      (get c (env.pageEnv x) url none (some (dictSet rp PAGE_PARAM (toString x)))).result
        = Except.ok (subr x))
    (hok : ∀ x ∈ pageRange (pagesFirst c env url (some rp)).maxpageno,
      okB (subr x) = true ∧ (subr x).data = some (sub x)) :
    (pages c env url tok (some rp)).subcalls.map SubCall.page =
      pageRange (pagesFirst c env url (some rp)).maxpageno ∧
    ((pages c env url tok (some rp)).subcalls.length : Int) =
      (pagesFirst c env url (some rp)).maxpageno - 1 ∧
    (∀ sc ∈ (pages c env url tok (some rp)).subcalls,
      sc.out.sentParams = some (dictSet rp PAGE_PARAM (toString sc.page)) ∧
      sc.out.callerHeaders = none) ∧
    (pages c env url tok (some rp)).result =
      Except.ok ⟨(pagesFirst c env url (some rp)).result_status,
        some (d0 ++ ((pageRange (pagesFirst c env url (some rp)).maxpageno).map sub).flatten)⟩ := by
  have hne : (pageRange (pagesFirst c env url (some rp)).maxpageno).isEmpty = false := by
    unfold pageRange
    rw [if_pos hN]
    have : (0:Int) < (pagesFirst c env url (some rp)).maxpageno - 1 := by omega
    simp [List.range', Int.toNat_eq_zero]
    omega
  have hcoll := collectResults_map c env.pageEnv url rp subr
    (pageRange (pagesFirst c env url (some rp)).maxpageno) hsub
  have hsubeq : (pages c env url tok (some rp)).subcalls =
      (pageRange (pagesFirst c env url (some rp)).maxpageno).map (fun x =>
        ⟨x, get c (env.pageEnv x) url none (some (dictSet rp PAGE_PARAM (toString x)))⟩) := by
    show (pagesFanout c env url (some rp)).2 = _
    unfold pagesFanout
    simp only [hd, hne, Bool.false_eq_true, if_false]
  refine ⟨?_, ?_, ?_, ?_⟩
  · rw [hsubeq]
    simp [List.map_map, Function.comp_def]
  · rw [hsubeq]
    simp only [List.length_map]
    unfold pageRange
    rw [if_pos hN]
    rw [List.length_range']
    omega
  · intro sc hsc
    rw [hsubeq] at hsc
    simp only [List.mem_map] at hsc
    obtain ⟨x, hx, hxeq⟩ := hsc
    subst hxeq
    exact ⟨rfl, rfl⟩
  · show (pagesFanout c env url (some rp)).1 = _
    unfold pagesFanout
    simp only [hd, hne, Bool.false_eq_true, if_false]
    rw [hcoll]
    simp [gatherFold_ok (pagesFirst c env url (some rp)).result_status subr sub
      (pageRange (pagesFirst c env url (some rp)).maxpageno) d0 hok]

theorem pagesFirstHeaders_iff (env : PagesEnv) :
    dictGet (pagesFirstHeaders env) IF_NON_MATCH ≠ none ↔
      ((∃ e, env.etagRead = CacheRead.ok (some e)) ∧
       (∃ b, env.jsonRead = CacheRead.ok (some b)) ∧
       (∃ n, env.pagesRead = CacheRead.ok (some n) ∧ 0 < n)) := by
  unfold pagesFirstHeaders
  rcases he : env.etagRead with _ | ⟨_ | e⟩ <;>
    rcases hj : env.jsonRead with _ | ⟨_ | b⟩ <;>
      rcases hp : env.pagesRead with _ | ⟨_ | n⟩ <;>
        simp only [he, hj, hp, readEtag, readJson, readPages] <;>
          first
            | (simp [dictGet]; done)
            | (by_cases hn : (0:Int) < n
               · rw [if_pos hn, dictGet_dictSet_self]
                 simp [hn]
               · rw [if_neg hn]
                 have hdg : dictGet ([] : StrDict) IF_NON_MATCH = none := rfl
                 rw [hdg]
                 simp only [ne_eq, not_true_eq_false, false_iff, not_and]
                 intro _ _
                 rintro ⟨n1, hn1, hpos⟩
                 cases hn1
                 exact hn hpos)

/-- C2: for a get whose caller did not itself pass If-None-Match, the
conditional validator is attached to the outgoing request iff both a
cached etag and a cached body were successfully read for the identity;
for pages, the validator additionally requires a positive cached page
count.  A missing body, a cache miss or a suppressed store error all
suppress the validator. -/
theorem get_validator_requires_cached_body (c : AppConstants) (env : GetEnv) (url : String)
    (rh rp : Option StrDict)
    (penv : PagesEnv) (purl ptok : String) (prp : Option StrDict)
    (hrh : ∀ hs, rh = some hs → dictGet hs IF_NON_MATCH = none) :
    (dictGet (get c env url rh rp).sentHeaders IF_NON_MATCH ≠ none ↔
      ((∃ e, env.etagRead = CacheRead.ok (some e)) ∧
       (∃ b, env.jsonRead = CacheRead.ok (some b)))) ∧
    (dictGet (pages c penv purl ptok prp).firstSentHeaders IF_NON_MATCH ≠ none ↔
      ((∃ e, penv.etagRead = CacheRead.ok (some e)) ∧
       (∃ b, penv.jsonRead = CacheRead.ok (some b)) ∧
       (∃ n, penv.pagesRead = CacheRead.ok (some n) ∧ 0 < n))) := by
  constructor
  · exact get_validator_iff c env url rh rp hrh
  · show dictGet (pagesFirstHeaders penv) IF_NON_MATCH ≠ none ↔ _
    exact pagesFirstHeaders_iff penv

/-- C10 (amended): get inserts If-None-Match (with the cached etag)
into the caller-owned request_headers dict exactly when that dict is
non-empty and both a cached etag and a cached body exist; an empty
caller dict is falsy, so the statement request_headers or dict()
replaces it with a fresh dict and the caller dict is never mutated; in
every other case the caller dict is returned unchanged. -/
theorem caller_headers_mutation_cases (c : AppConstants) (env : GetEnv) (url : String)
    (hs : StrDict) (rp : Option StrDict) :
    ((∃ e, env.etagRead = CacheRead.ok (some e)) →
     (∃ b, env.jsonRead = CacheRead.ok (some b)) →
       hs ≠ [] →
       ∃ e, env.etagRead = CacheRead.ok (some e) ∧
         (get c env url (some hs) rp).callerHeaders = some (dictSet hs IF_NON_MATCH e)) ∧
    (hs = [] → (get c env url (some hs) rp).callerHeaders = some hs) ∧
    (((∀ e, env.etagRead ≠ CacheRead.ok (some e)) ∨
      (∀ b, env.jsonRead ≠ CacheRead.ok (some b))) →
       (get c env url (some hs) rp).callerHeaders = some hs) := by
  refine ⟨?_, ?_, ?_⟩
  · rintro ⟨e, he⟩ ⟨b, hb⟩ hne
    refine ⟨e, he, ?_⟩
    unfold get
    have hemp : hs.isEmpty = false := by
      rcases hs with _ | ⟨p, l⟩
      · exact absurd rfl hne
      · rfl
    simp [readEtag, readJson, he, hb, hemp]
  · intro h
    subst h
    unfold get
    simp
  · intro h
    unfold get
    by_cases hemp : hs.isEmpty <;>
      rcases he : env.etagRead with _ | ⟨_ | e⟩ <;>
        rcases hj : env.jsonRead with _ | ⟨_ | b⟩ <;>
          simp only [he, hj, hemp, readEtag, readJson, Bool.false_eq_true, if_true, if_false] <;>
            first
              | (exfalso
                 rcases h with h2 | h2
                 · exact h2 e he
                 · exact h2 b hj)
              | simp [List.isEmpty_iff, hemp]

/-- C4 counterexample: with request_params left at its None default and
a successful first page reporting 2 total pages, pages raises TypeError
at the merge of the page number into None and issues no page-2 request,
refuting the claim that N-1 additional requests are issued for every
such call. -/
theorem pages_none_params_raises_type_error :
    (pages cW penvNoParamsW uW tokW none).result = Except.error PyErr.typeError ∧
    (pages cW penvNoParamsW uW tokW none).subcalls = [] := ⟨rfl, rfl⟩

/-- C7 counterexample: when the cache holds an etag and body for the
page-2 identity, the page-2 request issued by pages carries
If-None-Match, refuting the claim that the page 2..N requests are
unconditional regardless of the cache contents. -/
theorem pages_subrequest_with_cached_validator :
    (pages cW penvSubCacheW uW tokW (some [])).subcalls.map
      (fun sc => dictGet sc.out.sentHeaders IF_NON_MATCH) = [some eW2] := rfl

/-- C10 counterexample: with a cached etag and body present and the
caller passing an empty (non-None) dict, the outgoing request carries
the validator yet the caller-owned dict is unchanged after the call,
refuting the claim that the key is inserted into every non-None caller
dict under those cache conditions. -/
theorem empty_caller_dict_not_mutated :
    (get cW envCacheW uW (some []) none).callerHeaders = some [] ∧
    dictGet (get cW envCacheW uW (some []) none).sentHeaders IF_NON_MATCH = some eWW :=
  ⟨rfl, rfl⟩

/-- C2 witness at a concrete world with cached etag and body. -/
theorem get_validator_requires_cached_body_witness :
    (dictGet (get cW envCacheW uW (some hdW) none).sentHeaders IF_NON_MATCH ≠ none ↔
      ((∃ e, envCacheW.etagRead = CacheRead.ok (some e)) ∧
       (∃ b, envCacheW.jsonRead = CacheRead.ok (some b)))) ∧
    (dictGet (pages cW penvPosW uW tokW (some [])).firstSentHeaders IF_NON_MATCH ≠ none ↔
      ((∃ e, penvPosW.etagRead = CacheRead.ok (some e)) ∧
       (∃ b, penvPosW.jsonRead = CacheRead.ok (some b)) ∧
       (∃ n, penvPosW.pagesRead = CacheRead.ok (some n) ∧ 0 < n))) :=
  get_validator_requires_cached_body cW envCacheW uW (some hdW) none penvPosW uW tokW (some [])
    (by intro hs h; cases h; rfl)

/-- C3 witness: three pages, page 2 failing with 500, page 3 succeeding. -/
theorem pages_all_or_nothing_witness :
    ∃ psg x psr,
      pageRange (pagesFirst cW penvBadW uW (some [])).maxpageno = psg ++ x :: psr ∧
      (∀ y ∈ psg, okB (subrBadW y) = true) ∧ okB (subrBadW x) = false ∧
      (pages cW penvBadW uW tokW (some [])).result = Except.ok ⟨(subrBadW x).status, none⟩ :=
  pages_all_or_nothing cW penvBadW uW tokW [] [1] subrBadW rfl (by decide) (by decide) (by decide)

/-- C4 witness: three pages, every page succeeding. -/
theorem pages_fanout_count_and_order_witness :
    (pages cW penvOkW uW tokW (some [])).subcalls.map SubCall.page =
      pageRange (pagesFirst cW penvOkW uW (some [])).maxpageno ∧
    ((pages cW penvOkW uW tokW (some [])).subcalls.length : Int) =
      (pagesFirst cW penvOkW uW (some [])).maxpageno - 1 ∧
    (∀ sc ∈ (pages cW penvOkW uW tokW (some [])).subcalls,
      sc.out.sentParams = some (dictSet [] PAGE_PARAM (toString sc.page)) ∧
      sc.out.callerHeaders = none) ∧
    (pages cW penvOkW uW tokW (some [])).result =
      Except.ok ⟨(pagesFirst cW penvOkW uW (some [])).result_status,
        some ([1] ++
          ((pageRange (pagesFirst cW penvOkW uW (some [])).maxpageno).map subOkW).flatten)⟩ :=
  pages_fanout_count_and_order cW penvOkW uW tokW [] [1] subrOkW subOkW rfl (by decide) (by decide) (by decide)

/-- C5 witness: concrete 400 GET, 401 POST and all-401 GET runs. -/
theorem permanent_statuses_single_attempt_witness :
    (attemptsMade (get cW env400W uW none none).events = 1 ∧
      sleepCount (get cW env400W uW none none).events = 0) ∧
    (attemptsMade (post cW envP401W uW none none none).events = 1 ∧
      sleepCount (post cW envP401W uW none none none).events = 0) ∧
    attemptsMade (get cW env401W uW none none).events = cW.ESI_ERROR_RETRY_COUNT :=
  permanent_statuses_single_attempt cW env400W env401W envP401W uW none none none r400W r401W (fun _ => r401W)
    (by decide) (Or.inl rfl) rfl rfl rfl (fun _ => rfl) (fun _ => rfl)

/-- C6 witness: budget three, every attempt a 500 response. -/
theorem retry_budget_bound_and_backoff_witness :
    attemptsMade (get cW env500W uW none none).events = cW.ESI_ERROR_RETRY_COUNT ∧
    attemptsMade (get cW env500W uW none none).events ≤ cW.ESI_ERROR_RETRY_COUNT ∧
    sleepCount (get cW env500W uW none none).events = cW.ESI_ERROR_RETRY_COUNT - 1 ∧
    (get cW env500W uW none none).events.getLast? = some Event.attempt :=
  retry_budget_bound_and_backoff cW env500W uW none none (fun _ => rfl) (by decide)

/-- C7 witness at the concrete page-2 subcall with cached validator. -/
theorem pages_subrequest_validator_from_own_cache_witness :
    dictGet scW.out.sentHeaders IF_NON_MATCH ≠ none ↔
      ((∃ e, (penvSubCacheW.pageEnv scW.page).etagRead = CacheRead.ok (some e)) ∧
       (∃ b, (penvSubCacheW.pageEnv scW.page).jsonRead = CacheRead.ok (some b))) :=
  pages_subrequest_validator_from_own_cache cW penvSubCacheW uW tokW (some []) scW (by decide)

/-- C8 witness: a 304 reply with an empty cache. -/
theorem not_modified_without_cached_body_fails_witness :
    (get cW env304W uW none none).result = Except.ok ⟨304, none⟩ ∧
      attemptsMade (get cW env304W uW none none).events = 1 :=
  not_modified_without_cached_body_fails cW env304W uW none none ⟨304, some none, none, none, none⟩
    (by decide) rfl rfl rfl

/-- C9 witness: an Expires header 120 seconds in the future. -/
theorem cache_ttl_from_expires_or_default_witness :
    (∀ s : Int, (some (ExpiresParse.seconds 120) : Option ExpiresParse) =
        some (.seconds s) →
      (get cW env200W uW none none).writes =
        [⟨JSON_PREF ++ urlOf uW none, jsonDumps [1, 2], s⟩,
         ⟨ETAG_PREF ++ urlOf uW none, eWW, s⟩]) ∧
    ((some (ExpiresParse.seconds 120) : Option ExpiresParse) = none →
      (get cW env200W uW none none).writes =
        [⟨JSON_PREF ++ urlOf uW none, jsonDumps [1, 2], KV_LIFETIME⟩,
         ⟨ETAG_PREF ++ urlOf uW none, eWW, KV_LIFETIME⟩]) :=
  cache_ttl_from_expires_or_default cW env200W uW none none [1, 2] eWW (some (.seconds 120)) none (by decide) rfl

/-- C10 witness: a non-empty caller dict receives the validator key. -/
theorem caller_headers_mutation_cases_witness :
    (get cW envCacheW uW (some hdW) none).callerHeaders =
      some (dictSet hdW IF_NON_MATCH eWW) := by
  obtain ⟨e, he, hch⟩ :=
    (caller_headers_mutation_cases cW envCacheW uW hdW none).1 ⟨eWW, rfl⟩ ⟨[7], rfl⟩ (by decide)
  have h2 : CacheRead.ok (some eWW) = CacheRead.ok (some e) := he
  injection h2 with h3
  injection h3 with h4
  rw [← h4] at hch
  exact hch

end AppESI
